import Mathlib

/-!
Verification development for `deploy_pipeline.py` (jenkins-tools).

The program is a multi-stage deploy pipeline driven by one script:
a durable property record (`deploy.prop`, `key=value` lines), a directory
based deploy lock, a stage dispatcher with token ownership checks, branch
synchronisation against `master`, and a best-effort rollback controller.

Strings are modelled as `List Char` (`PyStr`), Python dicts as association
lists (`Props`) whose helper operations reproduce dict semantics up to
insertion order (Python 2 dicts are unordered; every place the order could
matter, the source sorts).  External collaborators (git, appengine,
hipchat delivery, the clock, the filesystem) are parameters; observable
actions are recorded in an explicit effect trace.
-/

/-- Python strings modelled as lists of characters. -/
abbrev PyStr := List Char

/-- Literal helper: a Lean string literal as a `PyStr`. -/
def pyS (s : String) : PyStr := s.data

/-- Python `str.isspace` characters relevant to `str.strip()`. -/
def pyIsSpace (c : Char) : Bool :=
  c == ' ' || c == '\t' || c == '\n' || c == '\r' || c == '\x0b' || c == '\x0c'

/-- Python `str.strip()`: drop leading and trailing whitespace. -/
def pyStrip (s : PyStr) : PyStr :=
  ((s.dropWhile pyIsSpace).reverse.dropWhile pyIsSpace).reverse

/-- Python `s.split(c)` for a single-character separator: every occurrence
splits, empty pieces are kept, `''.split(c) = ['']`. -/
def splitOnChar (c : Char) : PyStr → List PyStr
  | [] => [[]]
  | a :: s =>
    if a = c then [] :: splitOnChar c s
    else
      match splitOnChar c s with
      | [] => [[a]]
      | t :: ts => (a :: t) :: ts

/-- Python `s.split(c, 1)` restricted to the shape the source uses
(`(k, v) = l.split('=', 1)`): `some (before, after)` at the first
occurrence of `c`, `none` when `c` does not occur (the unpacking then
raises `ValueError`). -/
def splitFirst (c : Char) : PyStr → Option (PyStr × PyStr)
  | [] => none
  | a :: s =>
    if a = c then some ([], s)
    else
      match splitFirst c s with
      | none => none
      | some (x, y) => some (a :: x, y)

/-- Python `sep.join(pieces)` for a one-character separator. -/
def joinSep (c : Char) : List PyStr → PyStr
  | [] => []
  | [x] => x
  | x :: xs => x ++ c :: joinSep c xs

/-- Python `sep.join(pieces)` for a multi-character separator. -/
def joinStr (sep : PyStr) : List PyStr → PyStr
  | [] => []
  | [x] => x
  | x :: xs => x ++ sep ++ joinStr sep xs

/-- Python `s.split()` (no argument): split on whitespace runs, dropping
empty pieces. -/
def pySplitWs (s : PyStr) : List PyStr :=
  (splitOnChar ' ' s).filter (fun p => !p.isEmpty)

/-- Lexicographic `<=` on `PyStr`, as Python 2 compares byte strings. -/
def lexLeb : PyStr → PyStr → Bool
  | [], _ => true
  | _ :: _, [] => false
  | a :: s, b :: t => if a < b then true else if a = b then lexLeb s t else false

/-- Python tuple comparison `(k1, v1) <= (k2, v2)` used by
`sorted(props.iteritems())`. -/
def pairLeb (a b : PyStr × PyStr) : Bool :=
  if a.1 = b.1 then lexLeb a.2 b.2 else lexLeb a.1 b.1

/-- The ordering relation behind Python `sorted` on strings. -/
def strLe (a b : PyStr) : Prop := lexLeb a b = true

/-- The ordering relation behind Python `sorted` on `(key, value)` pairs. -/
def pairLe (a b : PyStr × PyStr) : Prop := pairLeb a b = true

instance : DecidableRel strLe :=
  fun a b => inferInstanceAs (Decidable (lexLeb a b = true))

instance : DecidableRel pairLe :=
  fun a b => inferInstanceAs (Decidable (pairLeb a b = true))

/-- Python `sorted` on a list of strings. -/
def sortStrs (l : List PyStr) : List PyStr := List.insertionSort strLe l

/-- Python `sorted(set(l))`: the distinct elements in ascending order. -/
def sortedSet (l : List PyStr) : List PyStr := sortStrs l.dedup

/-- Python `sorted` on dict items (pairs compared as tuples). -/
def sortPairs (l : List (PyStr × PyStr)) : List (PyStr × PyStr) :=
  List.insertionSort pairLe l

/-- Digits-only parse helper for Python `int()`. -/
def pyDigits? : PyStr → Option Nat
  | [] => none
  | l => if l.all Char.isDigit then
      some (l.foldl (fun n c => n * 10 + (c.toNat - '0'.toNat)) 0)
    else none

/-- Python `int(s)` on a decimal string (surrounding whitespace ignored,
optional sign); `none` models the `ValueError`. -/
def pyInt? (s : PyStr) : Option Int :=
  match pyStrip s with
  | '-' :: rest => (pyDigits? rest).map (fun n => -(n : Int))
  | '+' :: rest => (pyDigits? rest).map (fun n => (n : Int))
  | t => (pyDigits? t).map (fun n => (n : Int))

/-- Decimal rendering of an integer, as Python `str(int)`. -/
def pyIntStr (n : Int) : PyStr := (toString n).data

/-- The exception kinds the script can raise or catch. -/
inductive PyExc
  | ioError
  | osError
  | keyError
  | valueError
  | typeError
  | runtimeError
  | assertionError
  | indexError
  | calledProcessError
  | zeroDivisionError
  deriving DecidableEq, Repr

/-- Python `'%s...%s' % args` with `%s` placeholders: substitutes the
arguments positionally, `%%` is a literal percent; arity mismatch raises
`TypeError` (`not enough arguments` / `not all arguments converted`). -/
def pyFormatS : PyStr → List PyStr → Except PyExc PyStr
  | [], [] => .ok []
  | [], _ :: _ => .error .typeError
  | '%' :: '%' :: rest, args => (pyFormatS rest args).map (fun t => '%' :: t)
  | '%' :: 's' :: _rest, [] => .error .typeError
  | '%' :: 's' :: rest, a :: args => (pyFormatS rest args).map (fun t => a ++ t)
  | c :: rest, args => (pyFormatS rest args).map (fun t => c :: t)

/-- A property record: the in-memory dict of property names to values.
Association list with dict semantics; insertion order is irrelevant to
every property proved here (the source sorts whenever order is visible). -/
abbrev Props := List (PyStr × PyStr)

/-- Python `d[k]` / `d.get(k)` lookup. -/
def pget : Props → PyStr → Option PyStr
  | [], _ => none
  | kv :: p, k => if kv.1 = k then some kv.2 else pget p k

/-- Python `d[k] = v`: dict assignment (modelled as remove-then-append;
faithful to the key-value mapping, see the header note on order). -/
def pset (p : Props) (k v : PyStr) : Props :=
  p.filter (fun kv => decide (kv.1 ≠ k)) ++ [(k, v)]

/-- Python `d.setdefault(k, v)`. -/
def psetdefault (p : Props) (k v : PyStr) : Props :=
  match pget p k with
  | some _ => p
  | none => pset p k v

/-- Python `d.update(nv)`: assign every pair of `nv` into `d`. -/
def pupdate (p : Props) (nv : Props) : Props :=
  nv.foldl (fun acc kv => pset acc kv.1 kv.2) p

/-- Alert/notification message identities (formatting of the hipchat text
is out of scope; each distinct message site gets a tag). -/
inductive AMsg
  | tokenMismatch
  | unexpectedAction
  | noLock
  | deployStarting
  | queuedFirst
  | queuedAgain
  | stuckCancel
  | stuckFinish
  | stuckUnlock
  | autoRolling
  | rollbackFailedManual
  | rolledBackToBadWarning
  deriving DecidableEq, Repr

/-- Observable actions of the script, recorded in order. -/
inductive Effect
  | alert (prefixUser : Bool) (severity : Nat) (msg : AMsg)
  | writeProps (file : PyStr)
  | stage (action : PyStr)
  | mkdirAttempt
  | gitTagCreate (tag : PyStr)
  | gitPushTags
  | setDefaultCall (version : PyStr)
  deriving DecidableEq, Repr

/-- `logging` severities used by the source. -/
def sevINFO : Nat := 20
def sevERROR : Nat := 40
def sevCRITICAL : Nat := 50

/-- Key-name shorthands (property names from the source). -/
def kLOCKDIR : PyStr := pyS "LOCKDIR"
def kPNS : PyStr := pyS "POSSIBLE_NEXT_STEPS"
def kTOKEN : PyStr := pyS "TOKEN"
def kLAT : PyStr := pyS "LOCK_ACQUIRE_TIME"
def kVERSION : PyStr := pyS "VERSION_NAME"
def kROLLBACK : PyStr := pyS "ROLLBACK_TO"
def kGITREV : PyStr := pyS "GIT_REVISION"
def kGITSHA : PyStr := pyS "GIT_SHA1"
def kLASTERR : PyStr := pyS "LAST_ERROR"

/-- Arguments of `_create_properties`. -/
structure CreateArgs where
  lockdir : PyStr
  deployer_email : PyStr
  git_revision : PyStr
  auto_deploy : Bool
  rollback_to : PyStr
  jenkins_url : PyStr
  hipchat_room : PyStr
  hipchat_sender : PyStr
  deploy_email : PyStr
  deploy_pw_file : PyStr
  token : PyStr

/-- `_create_properties` (deploy_pipeline.py:208-271).  `gaeVersion`
models `_gae_version` (the external version-naming collaborator) and
`emailToHipchat` models `_email_to_hipchat_name` (the external directory
lookup with its local-part fallback). -/
def _create_properties (gaeVersion emailToHipchat : PyStr → PyStr)
    (a : CreateArgs) : Props :=
  [ (kLOCKDIR, a.lockdir),
    (pyS "DEPLOYER_EMAIL", a.deployer_email),
    (kGITREV, a.git_revision),
    (pyS "AUTO_DEPLOY", if a.auto_deploy then pyS "true" else pyS "false"),
    (kROLLBACK, a.rollback_to),
    (pyS "JENKINS_URL", a.jenkins_url),
    (pyS "HIPCHAT_ROOM", a.hipchat_room),
    (pyS "HIPCHAT_SENDER", a.hipchat_sender),
    (pyS "DEPLOY_EMAIL", a.deploy_email),
    (pyS "DEPLOY_PW_FILE", a.deploy_pw_file),
    (kTOKEN, a.token),
    (kGITSHA, a.git_revision),
    (kVERSION, gaeVersion a.git_revision),
    (pyS "DEPLOYER_USERNAME", a.deployer_email.takeWhile (fun c => c ≠ '@')),
    (pyS "DEPLOYER_HIPCHAT_NAME", emailToHipchat a.deployer_email),
    (kLASTERR, []),
    (kPNS, pyS "acquire-lock,finish-with-unlock,relock") ]

/-- The line written for one property: `key=value`. -/
def lineOf (kv : PyStr × PyStr) : PyStr := kv.1 ++ '=' :: kv.2

/-- `_write_properties` (deploy_pipeline.py:289-294): the file content
written to `<LOCKDIR>/deploy.prop` — one `key=value` line per property,
sorted, each terminated by a newline (`print >>f`). -/
def _write_properties (props : Props) : PyStr :=
  ((sortPairs props).map (fun kv => lineOf kv ++ ['\n'])).flatten

/-- Python `file.readlines()` with the trailing `'\n'` of each line
already removed (every use in the source strips the line next). -/
def pyReadLines (file : PyStr) : List PyStr :=
  let parts := splitOnChar '\n' file
  if parts.getLast? = some [] then parts.dropLast else parts

/-- One line of `_read_properties`: `(k, v) = l.strip().split('=', 1)`. -/
def parseLinePy (l : PyStr) : Except PyExc (PyStr × PyStr) :=
  match splitFirst '=' (pyStrip l) with
  | some kv => .ok kv
  | none => .error .valueError

/-- The read loop of `_read_properties`: fill a fresh dict line by line. -/
def parseAll : List PyStr → Props → Except PyExc Props
  | [], acc => .ok acc
  | l :: ls, acc =>
    match parseLinePy l with
    | .error e => .error e
    | .ok (k, v) => parseAll ls (pset acc k v)

/-- `_read_properties` (deploy_pipeline.py:274-286): parse the file, then
`assert retval['LOCKDIR'] == lockdir`.  The missing-file `IOError` is the
caller's `none` file case; this takes the file content that was read. -/
def _read_properties (lockdir : PyStr) (file : PyStr) : Except PyExc Props :=
  match parseAll (pyReadLines file) [] with
  | .error e => .error e
  | .ok r =>
    match pget r kLOCKDIR with
    | none => .error .keyError
    | some d => if d = lockdir then .ok r else .error .assertionError

/-- The escape-hatch actions `_update_properties` always merges into
`POSSIBLE_NEXT_STEPS`. -/
def escapeHatches : List PyStr :=
  [pyS "finish-with-failure", pyS "finish-with-rollback",
   pyS "finish-with-unlock", pyS "relock"]

/-- Derivation rule 1 of `_update_properties` (deploy_pipeline.py:308-310):
a changed `GIT_SHA1` re-derives `VERSION_NAME` unless the caller set it. -/
def ruleVersion (gaeVersion : PyStr → PyStr) (nv : Props) : Props :=
  if (pget nv kGITSHA).isSome then
    psetdefault nv kVERSION (gaeVersion ((pget nv kGITSHA).getD []))
  else nv

/-- Derivation rule 2 (deploy_pipeline.py:312-314): a changed
`DEPLOYER_EMAIL` re-derives `DEPLOYER_USERNAME` (local part). -/
def ruleUsername (nv : Props) : Props :=
  if (pget nv (pyS "DEPLOYER_EMAIL")).isSome then
    psetdefault nv (pyS "DEPLOYER_USERNAME")
      (((pget nv (pyS "DEPLOYER_EMAIL")).getD []).takeWhile (fun c => c ≠ '@'))
  else nv

/-- Derivation rule 3 (deploy_pipeline.py:316-319): a changed
`DEPLOYER_USERNAME` re-derives `DEPLOYER_HIPCHAT_NAME`. -/
def ruleHipchat (emailToHipchat : PyStr → PyStr) (nv : Props) : Props :=
  if (pget nv (pyS "DEPLOYER_USERNAME")).isSome then
    psetdefault nv (pyS "DEPLOYER_HIPCHAT_NAME")
      (emailToHipchat ((pget nv (pyS "DEPLOYER_USERNAME")).getD []))
  else nv

/-- Derivation rule 4 (deploy_pipeline.py:321-323): a changed `LOCKDIR`
stamps `LOCK_ACQUIRE_TIME = int(time.time())`. -/
def ruleLockTime (now : Int) (nv : Props) : Props :=
  if (pget nv kLOCKDIR).isSome then psetdefault nv kLAT (pyIntStr now)
  else nv

/-- Derivation rule 5 (deploy_pipeline.py:325-334): a changed
`POSSIBLE_NEXT_STEPS` is unioned with the escape hatches and re-joined
sorted. -/
def ruleNextSteps (nv : Props) : Props :=
  match pget nv kPNS with
  | none => nv
  | some v =>
    pset nv kPNS (joinSep ',' (sortedSet (splitOnChar ',' v ++ escapeHatches)))

/-- `_update_properties` (deploy_pipeline.py:297-337) without the final
`_write_properties` call: apply the ordered derivation rules to the
caller's changes, then merge them into the record.  `now` is
`int(time.time())` (rule 4), and the two collaborators are as in
`_create_properties`. -/
def _update_properties (gaeVersion emailToHipchat : PyStr → PyStr)
    (now : Int) (props new_values : Props) : Props :=
  pupdate props
    (ruleNextSteps (ruleLockTime now (ruleHipchat emailToHipchat
      (ruleUsername (ruleVersion gaeVersion new_values)))))

/-- `_update_properties` together with the file it persists, and the
`writeProps` effect it causes. -/
def updateAndWrite (gaeVersion emailToHipchat : PyStr → PyStr) (now : Int)
    (props new_values : Props) : Props × Effect :=
  let p := _update_properties gaeVersion emailToHipchat now props new_values
  (p, Effect.writeProps (_write_properties p))

/-- Outcome of one `os.mkdir(lockdir)` attempt. -/
inductive MkdirOutcome
  | ok
  | eexist
  | fail
  deriving DecidableEq, Repr

/-- Environment of `acquire_deploy_lock`: the holder's record as read at
entry (`none` models the tolerated `IOError`/`OSError`), the wall clock at
entry, the outcome of the `k`-th `os.mkdir` attempt and the clock value
stamped on a successful acquisition. -/
structure AcquireEnv where
  readRes : Option Props
  now : Int
  mkdirAt : Nat → MkdirOutcome
  stampAt : Nat → Int
  jenkins_build_url : Option PyStr

/-- The post-loop "stuck lock" tail of `acquire_deploy_lock`
(deploy_pipeline.py:431-461): pick a recovery suggestion from the
holder's `POSSIBLE_NEXT_STEPS` (a raw `current_props[...]` lookup — this
is the spot that raises `KeyError` when the holder's record could not be
read), build the links, alert at severity error, raise `RuntimeError`. -/
def timeoutTail (current_props _props : Props) (_waited_sec : Int)
    (effs : List Effect) : Except PyExc Props × List Effect :=
  match pget current_props kPNS with
  | none => (.error .keyError, effs)
  | some pns =>
    let ns := splitOnChar ',' pns
    let msgStep : Except PyExc AMsg :=
      if pyS "merge-from-master" ∈ ns ∨ pyS "manual-test" ∈ ns ∨
          pyS "set-default" ∈ ns then
        -- _finish_url(current_props, ...) reads JENKINS_URL and TOKEN
        match pget current_props (pyS "JENKINS_URL"),
              pget current_props kTOKEN with
        | some _, some _ => .ok .stuckCancel
        | _, _ => .error .keyError
      else if pyS "finish-with-success" ∈ ns then
        match pget current_props (pyS "JENKINS_URL"),
              pget current_props kTOKEN, pget current_props kROLLBACK with
        | some _, some _, some _ => .ok .stuckFinish
        | _, _, _ => .error .keyError
      else
        match pget current_props (pyS "JENKINS_URL"),
              pget current_props kTOKEN with
        | some _, some _ => .ok .stuckUnlock
        | _, _ => .error .keyError
    match msgStep with
    | .error e => (.error e, effs)
    | .ok m =>
      match pget current_props (pyS "DEPLOYER_USERNAME"),
            pget current_props (pyS "JENKINS_URL") with
      | some _, some _ =>
        (.error .runtimeError, effs ++ [Effect.alert true sevERROR m])
      | _, _ => (.error .keyError, effs)

/-- The busy-wait loop of `acquire_deploy_lock`
(deploy_pipeline.py:376-429).  `fuel` only bounds the structural
recursion; the caller passes enough for the `waited_sec < wait_sec` guard
to be the sole exit (each iteration adds 10 to `waited_sec`). -/
def acquireLoop (env : AcquireEnv) (props current_props : Props)
    (wait_sec notify_sec : Int) :
    Nat → Nat → Int → Bool → List Effect → Except PyExc Props × List Effect
  | fuel, k, waited_sec, done_first, effs =>
    if waited_sec < wait_sec then
      match fuel with
      | 0 => timeoutTail current_props props waited_sec effs
      | fuel + 1 =>
        let effs := effs ++ [Effect.mkdirAttempt]
        match env.mkdirAt k with
        | .fail => (.error .osError, effs)
        | .ok =>
          let props := pset props kLAT (pyIntStr (env.stampAt k))
          -- the success message reads GIT_REVISION (and AUTO_DEPLOY when
          -- a build url is present)
          match pget props kGITREV with
          | none => (.error .keyError, effs)
          | some _ =>
            match env.jenkins_build_url with
            | some _ =>
              match pget props (pyS "AUTO_DEPLOY") with
              | none => (.error .keyError, effs)
              | some _ =>
                (.ok props, effs ++ [Effect.alert true sevINFO .deployStarting])
            | none =>
              (.ok props, effs ++ [Effect.alert true sevINFO .deployStarting])
        | .eexist =>
          -- recover_msg reads props['JENKINS_URL']
          match pget props (pyS "JENKINS_URL") with
          | none => (.error .keyError, effs)
          | some _ =>
            if !done_first then
              match pget props kGITREV with
              | none => (.error .keyError, effs)
              | some _ =>
                acquireLoop env props current_props wait_sec notify_sec
                  fuel (k + 1) (waited_sec + 10) true
                  (effs ++ [Effect.alert true sevINFO .queuedFirst])
            else if notify_sec = 0 then (.error .zeroDivisionError, effs)
            else if waited_sec % notify_sec = 0 then
              acquireLoop env props current_props wait_sec notify_sec
                fuel (k + 1) (waited_sec + 10) done_first
                (effs ++ [Effect.alert true sevINFO .queuedAgain])
            else
              acquireLoop env props current_props wait_sec notify_sec
                fuel (k + 1) (waited_sec + 10) done_first effs
    else timeoutTail current_props props waited_sec effs

/-- `acquire_deploy_lock` (deploy_pipeline.py:340-461).  The holder's
record read and its `IOError`/`OSError` tolerance (`waited_sec = 0`,
`current_props = {}`) are deploy_pipeline.py:366-374; note a missing or
unparseable `LOCK_ACQUIRE_TIME` in a successfully read record is *not*
caught there. -/
def acquire_deploy_lock (env : AcquireEnv) (props : Props)
    (wait_sec notify_sec : Int) : Except PyExc Props × List Effect :=
  match pget props kLOCKDIR with
  | none => (.error .keyError, [])
  | some _ =>
    match env.readRes with
    | none =>
      acquireLoop env props [] wait_sec notify_sec
        ((wait_sec).toNat + 1) 0 0 false []
    | some cp =>
      match pget cp kLAT with
      | none => (.error .keyError, [])
      | some s =>
        match pyInt? s with
        | none => (.error .valueError, [])
        | some t =>
          acquireLoop env props cp wait_sec notify_sec
            ((wait_sec - (env.now - t)).toNat + 1) 0 (env.now - t) false []

/-- Environment of `merge_from_master`: the git collaborator.  The
plumbing fetch/checkout/reset commands are modelled as succeeding; the
decision points the source branches on are explicit. -/
structure GitEnv where
  isRemoteBranch : PyStr → Bool
  headAfterCheckout : PyStr
  revParse : PyStr → PyStr
  mergeBase : PyStr → PyStr → PyStr
  showRefLines : List PyStr
  mergeMasterOk : Bool
  pushOk : Bool

/-- `all_branch_names = [l.split()[1] for l in all_branches]`
(deploy_pipeline.py:584): whitespace-split each `git show-ref` line and
take field 1 (`IndexError` when a line has fewer than two fields). -/
def branchNames : List PyStr → Except PyExc (List PyStr)
  | [] => .ok []
  | l :: ls =>
    match (pySplitWs l).get? 1 with
    | none => .error .indexError
    | some n =>
      match branchNames ls with
      | .error e => .error e
      | .ok ns => .ok (n :: ns)

/-- The format string of the not-a-branch `ValueError`
(deploy_pipeline.py:586-587): two `%s` placeholders. -/
def notABranchFmt : PyStr :=
  pyS "%s is not a branch name on the remote, like these:\n  %s"

/-- `merge_from_master` (deploy_pipeline.py:511-607).  Returns `.ok ()`
when no merge is needed or the merge+push succeed. -/
def merge_from_master (G : GitEnv) (props : Props) : Except PyExc Unit :=
  match pget props kGITREV with
  | none => .error .keyError
  | some rev =>
    if rev = pyS "master" then .error .valueError
    else
      let head_commit := G.headAfterCheckout
      let master_commit := G.revParse (pyS "master")
      if head_commit ≠ G.revParse rev then .error .runtimeError
      else if G.mergeBase rev master_commit = master_commit then .ok ()
      else
        match branchNames G.showRefLines with
        | .error e => .error e
        | .ok names =>
          if (pyS "refs/remotes/origin/" ++ rev) ∉ names then
            -- the message is built with a single argument against two
            -- placeholders: the `%` operation itself raises
            match pyFormatS notABranchFmt [joinStr (pyS "\n  ") (sortStrs names)] with
            | .error e => .error e
            | .ok _ => .error .valueError
          else if !G.mergeMasterOk then .error .runtimeError
          else if !G.pushOk then .error .runtimeError
          else .ok ()

/-- Environment of `_rollback_deploy`: the appengine/current-version
query, git tag listing/creation, tag push, the deploy password file read
and `deploy.set_default.main`. -/
structure RollbackEnv where
  currentGae : Except PyExc PyStr
  tagList : PyStr → PyStr
  tagCreate : Except PyExc Unit
  pushTags : Except PyExc Unit
  readPw : Except PyExc Unit
  setDefaultMain : Except PyExc Unit

/-- `_tag_as_bad_version` (deploy_pipeline.py:623-632): create the
`gae-<version>-bad` tag unless it already exists. -/
def _tag_as_bad_version (E : RollbackEnv) (props : Props) :
    Except PyExc Unit × List Effect :=
  match pget props kVERSION with
  | none => (.error .keyError, [])
  | some v =>
    let tag := pyS "gae-" ++ v ++ pyS "-bad"
    if E.tagList tag = [] then
      match pget props kGITSHA with
      | none => (.error .keyError, [])
      | some _ =>
        match E.tagCreate with
        | .error e => (.error e, [Effect.gitTagCreate tag])
        | .ok _ => (.ok (), [Effect.gitTagCreate tag])
    else (.ok (), [])

/-- The `try` block of `_rollback_deploy` (deploy_pipeline.py:707-730):
tag the bad version, push tags, switch the default back to `rb`, then
warn if `rb` itself carries a bad tag. -/
def rollbackTry (E : RollbackEnv) (props : Props) (rb : PyStr) :
    Except PyExc Unit × List Effect :=
  match _tag_as_bad_version E props with
  | (.error e, effs) => (.error e, effs)
  | (.ok _, effs) =>
    match E.pushTags with
    | .error e => (.error e, effs ++ [Effect.gitPushTags])
    | .ok _ =>
      let effs := effs ++ [Effect.gitPushTags]
      match pget props (pyS "DEPLOY_PW_FILE") with
      | none => (.error .keyError, effs)
      | some _ =>
        match E.readPw with
        | .error e => (.error e, effs)
        | .ok _ =>
          match pget props (pyS "DEPLOY_EMAIL"),
                pget props (pyS "HIPCHAT_ROOM") with
          | some _, some _ =>
            match E.setDefaultMain with
            | .error e => (.error e, effs ++ [Effect.setDefaultCall rb])
            | .ok _ =>
              let effs := effs ++ [Effect.setDefaultCall rb]
              if E.tagList (rb ++ pyS "-bad") ≠ [] then
                (.ok (), effs ++ [Effect.alert true sevINFO .rolledBackToBadWarning])
              else (.ok (), effs)
          | _, _ => (.error .keyError, effs)

/-- `_rollback_deploy` (deploy_pipeline.py:689-740).  The live-version
re-read and the skip test (695-701), plus the announcement alert
(703-706), happen before the `try`; everything inside the `try` is caught
and surfaced as `False` with a critical alert (731-738). -/
def _rollback_deploy (E : RollbackEnv) (props : Props) :
    Except PyExc Bool × List Effect :=
  match E.currentGae with
  | .error e => (.error e, [])
  | .ok current_gae_version =>
    match pget props kVERSION with
    | none => (.error .keyError, [])
    | some v =>
      match pget props kROLLBACK with
      | none => (.error .keyError, [])
      | some rb =>
        if current_gae_version ≠ v then (.ok true, [])
        else
          let effs0 := [Effect.alert true sevINFO .autoRolling]
          match rollbackTry E props rb with
          | (.ok _, effs) => (.ok true, effs0 ++ effs)
          | (.error _, effs) =>
            (.ok false,
             effs0 ++ effs ++ [Effect.alert true sevCRITICAL .rollbackFailedManual])

/-- Result of step 1 of the dispatcher (load or create the record). -/
inductive LoadOut
  | got (props : Props)
  | failedFalse
  | exc (e : PyExc)
  deriving DecidableEq, Repr

/-- Step 1 of `main` (deploy_pipeline.py:1047-1071): `acquire-lock`
constructs a fresh record; everything else reads `lockdir/deploy.prop`
(`none` file = `IOError`: `relock` just logs, any other action alerts
record-less, both return `False`).  Parse/assert failures of a present
file are not `IOError` and propagate. -/
def loadRecord (gaeVersion emailToHipchat : PyStr → PyStr) (cargs : CreateArgs)
    (action lockdir : PyStr) (file : Option PyStr) : LoadOut × List Effect :=
  if action = pyS "acquire-lock" then
    (.got (_create_properties gaeVersion emailToHipchat cargs), [])
  else
    match file with
    | none =>
      if action = pyS "relock" then (.failedFalse, [])
      else (.failedFalse, [Effect.alert true sevERROR .noLock])
    | some f =>
      match _read_properties lockdir f with
      | .error e => (.exc e, [])
      | .ok p => (.got p, [])

/-- The stage handlers, as collaborators of the dispatcher: each returns
its (possibly updated) record or the exception it raises, plus its own
effect trace.  `revParseRevision` is the `git rev-parse` after a merge;
`propFileStillThere` is the `os.path.exists` test of line 1165. -/
structure Handlers where
  acquire : Props → Except PyExc Props × List Effect
  merge : Props → Except PyExc Unit × List Effect
  revParseRevision : PyStr → PyStr
  manualTest : Props → Except PyExc Unit × List Effect
  setDefault : Props → Except PyExc Unit × List Effect
  finishUnlock : Props → PyStr → Except PyExc Unit × List Effect
  finishSuccess : Props → Except PyExc Unit × List Effect
  finishFailure : Props → Except PyExc Unit × List Effect
  finishRollback : Props → Except PyExc Unit × List Effect
  relockGo : Props → Except PyExc Props × List Effect
  propFileStillThere : Bool

/-- The record message stored into `LAST_ERROR` for an exception
(`str(why)`; the text itself is immaterial, the kind name stands in). -/
def excMsg (e : PyExc) : PyStr := (reprStr e).data

/-- The `except Exception` tail of `main` (deploy_pipeline.py:1168-1175):
record `LAST_ERROR` — unless the action was `acquire-lock`, which must
not manufacture a lock by writing — and return `False`. -/
def mainExceptTail (gaeVersion emailToHipchat : PyStr → PyStr) (now : Int)
    (action : PyStr) (e : PyExc) (props : Props) (effs : List Effect) :
    Except PyExc Bool × List Effect :=
  if action ≠ pyS "acquire-lock" then
    let (_, we) := updateAndWrite gaeVersion emailToHipchat now props
      [(kLASTERR, excMsg e)]
    (.ok false, effs ++ [we])
  else (.ok false, effs)

/-- The `try` block of `main` (deploy_pipeline.py:1103-1167): run the
requested stage handler, apply the per-stage `POSSIBLE_NEXT_STEPS`
updates, clear `LAST_ERROR` on success.  Returns the dispatch boolean. -/
def runStages (gaeVersion emailToHipchat : PyStr → PyStr) (now : Int)
    (H : Handlers) (action : PyStr) (props : Props) (callerName : PyStr) :
    Except PyExc Bool × List Effect :=
  let inner : Except PyExc Unit × Props × List Effect :=
    if action = pyS "acquire-lock" then
      match H.acquire props with
      | (.error e, es) => (.error e, props, Effect.stage action :: es)
      | (.ok p1, es) =>
        let f1 := _write_properties p1
        let (p2, we) := updateAndWrite gaeVersion emailToHipchat now p1
          [(kPNS, pyS "merge-from-master")]
        (.ok (), p2, Effect.stage action :: es ++ [Effect.writeProps f1, we])
    else if action = pyS "merge-from-master" then
      match H.merge props with
      | (.error e, es) => (.error e, props, Effect.stage action :: es)
      | (.ok _, es) =>
        match pget props kGITREV, pget props (pyS "AUTO_DEPLOY") with
        | some rev, some auto =>
          let sha1 := H.revParseRevision rev
          let next_steps :=
            (if auto = pyS "true" then pyS "set-default" else pyS "manual-test")
              ++ pyS ",finish-with-success"
          let (p2, we) := updateAndWrite gaeVersion emailToHipchat now props
            [(kGITSHA, sha1), (kPNS, next_steps)]
          (.ok (), p2, Effect.stage action :: es ++ [we])
        | _, _ => (.error .keyError, props, Effect.stage action :: es)
    else if action = pyS "manual-test" then
      match H.manualTest props with
      | (.error e, es) => (.error e, props, Effect.stage action :: es)
      | (.ok _, es) =>
        let (p2, we) := updateAndWrite gaeVersion emailToHipchat now props
          [(kPNS, pyS "set-default")]
        (.ok (), p2, Effect.stage action :: es ++ [we])
    else if action = pyS "set-default" then
      match H.setDefault props with
      | (.error e, es) => (.error e, props, Effect.stage action :: es)
      | (.ok _, es) =>
        match pget props (pyS "AUTO_DEPLOY") with
        | none => (.error .keyError, props, Effect.stage action :: es)
        | some auto =>
          if auto = pyS "true" then
            match H.finishSuccess props with
            | (.error e, es2) => (.error e, props, Effect.stage action :: es ++ es2)
            | (.ok _, es2) => (.ok (), props, Effect.stage action :: es ++ es2)
          else
            let (p2, we) := updateAndWrite gaeVersion emailToHipchat now props
              [(kPNS, pyS "finish-with-success")]
            (.ok (), p2, Effect.stage action :: es ++ [we])
    else if action = pyS "finish-with-unlock" then
      match H.finishUnlock props callerName with
      | (.error e, es) => (.error e, props, Effect.stage action :: es)
      | (.ok _, es) => (.ok (), props, Effect.stage action :: es)
    else if action = pyS "finish-with-success" then
      match H.finishSuccess props with
      | (.error e, es) => (.error e, props, Effect.stage action :: es)
      | (.ok _, es) => (.ok (), props, Effect.stage action :: es)
    else if action = pyS "finish-with-failure" then
      match H.finishFailure props with
      | (.error e, es) => (.error e, props, Effect.stage action :: es)
      | (.ok _, es) => (.ok (), props, Effect.stage action :: es)
    else if action = pyS "finish-with-rollback" then
      match H.finishRollback props with
      | (.error e, es) => (.error e, props, Effect.stage action :: es)
      | (.ok _, es) => (.ok (), props, Effect.stage action :: es)
    else if action = pyS "relock" then
      match H.relockGo props with
      | (.error e, es) => (.error e, props, Effect.stage action :: es)
      | (.ok p1, es) =>
        let (p2, we) := updateAndWrite gaeVersion emailToHipchat now p1
          [(kPNS, pyS "<all>")]
        (.ok (), p2, Effect.stage action :: es ++ [we])
    else (.error .runtimeError, props, [])
  match inner with
  | (.ok _, p, es) =>
    match pget p kLOCKDIR with
    | none => mainExceptTail gaeVersion emailToHipchat now action .keyError p es
    | some _ =>
      if H.propFileStillThere then
        let (_, we) := updateAndWrite gaeVersion emailToHipchat now p
          [(kLASTERR, [])]
        (.ok true, es ++ [we])
      else (.ok true, es)
  | (.error e, p, es) => mainExceptTail gaeVersion emailToHipchat now action e p es

/-- Steps 2-4 of `main` (deploy_pipeline.py:1073-1175), after the record
is in hand: the token ownership check (return `True` on mismatch, alert
not attributed to the recorded user), the legal-next-step check (return
`True` on an ignored unexpected action), then the stage handlers. -/
def tokenAndRun (gaeVersion emailToHipchat : PyStr → PyStr) (now : Int)
    (H : Handlers) (action : PyStr) (props : Props) (token : PyStr)
    (callerName : PyStr) : Except PyExc Bool × List Effect :=
  if token ≠ [] ∧ (pget props kTOKEN).getD [] ≠ [] ∧
      token ≠ (pget props kTOKEN).getD [] then
    (.ok true, [Effect.alert false sevERROR .tokenMismatch])
  else
    match pget props kPNS with
    | none => (.error .keyError, [])
    | some pns =>
      if action ∉ splitOnChar ',' pns ∧ pyS "<all>" ∉ splitOnChar ',' pns then
        (.ok true, [Effect.alert true sevERROR .unexpectedAction])
      else runStages gaeVersion emailToHipchat now H action props callerName

/-- `main` (deploy_pipeline.py:1010-1175): the dispatcher.  `file` is the
content of `lockdir/deploy.prop` (`none` = it cannot be opened);
`caller_email` as in the source (identity for record-less alerts and
`finish-with-unlock`).  Uncaught exceptions are the `.error` result. -/
def mainDispatch (gaeVersion emailToHipchat : PyStr → PyStr) (now : Int)
    (H : Handlers) (cargs : CreateArgs) (action lockdir : PyStr)
    (file : Option PyStr) (token : PyStr) (caller_email : PyStr) :
    Except PyExc Bool × List Effect :=
  match loadRecord gaeVersion emailToHipchat cargs action lockdir file with
  | (.exc e, effs) => (.error e, effs)
  | (.failedFalse, effs) => (.ok false, effs)
  | (.got props, effs) =>
    let (r, effs2) := tokenAndRun gaeVersion emailToHipchat now H action props
      token (emailToHipchat caller_email)
    (r, effs ++ effs2)

/-- Record-validity condition under which the `key=value` file format
round-trips: the key contains no `=`, the line contains no newline, and
`strip()` leaves the line unchanged. -/
def cleanPair (kv : PyStr × PyStr) : Prop :=
  '=' ∉ kv.1 ∧ '\n' ∉ lineOf kv ∧ pyStrip (lineOf kv) = lineOf kv

/-- A concrete version-namer collaborator (used by concrete scenarios). -/
def gv0 : PyStr → PyStr := fun _ => pyS "0515-abcd123"

/-- A concrete email-to-hipchat collaborator (the deterministic guess). -/
def hm0 : PyStr → PyStr := fun s => '@' :: s.takeWhile (fun c => c ≠ '@')

/-- A concrete `acquire-lock` argument tuple. -/
def cargs0 : CreateArgs :=
  { lockdir := pyS "/tmp/deploy.lockdir"
    deployer_email := pyS "alice@example.com"
    git_revision := pyS "feature-x"
    auto_deploy := false
    rollback_to := pyS "0510-prev"
    jenkins_url := pyS "http://jenkins.example/"
    hipchat_room := pyS "deploys"
    hipchat_sender := pyS "Testybot"
    deploy_email := pyS "prod-deploy@example.com"
    deploy_pw_file := pyS "/home/prod-deploy.pw"
    token := pyS "tok-a" }

/-- Stage handlers that succeed without observable effects (concrete
scenarios). -/
def H0 : Handlers :=
  { acquire := fun p => (.ok p, [])
    merge := fun _ => (.ok (), [])
    revParseRevision := fun r => r
    manualTest := fun _ => (.ok (), [])
    setDefault := fun _ => (.ok (), [])
    finishUnlock := fun _ _ => (.ok (), [])
    finishSuccess := fun _ => (.ok (), [])
    finishFailure := fun _ => (.ok (), [])
    finishRollback := fun _ => (.ok (), [])
    relockGo := fun p => (.ok p, [])
    propFileStillThere := true }

/-- A key-sorted stored record whose token is `tok-a` (concrete token
mismatch scenario). -/
def props3 : Props :=
  [(kLOCKDIR, pyS "/lk"), (kPNS, pyS "set-default"), (kTOKEN, pyS "tok-a")]

/-- A key-sorted stored record whose token is the *empty string*
(concrete stored-token-empty scenario). -/
def props4 : Props :=
  [(kLASTERR, []), (kLOCKDIR, pyS "/lk"),
   (kPNS, pyS "finish-with-failure,finish-with-rollback,finish-with-unlock,relock,set-default"),
   (kTOKEN, [])]

/-- Acquire environment: the holder's record is unreadable and the lock
directory never frees up. -/
def env5 : AcquireEnv :=
  { readRes := none
    now := 1000
    mkdirAt := fun _ => .eexist
    stampAt := fun _ => 1000
    jenkins_build_url := none }

/-- Acquire environment: the holder's readable record says the lock was
taken at time 100, and the lock directory never frees up. -/
def cp10 : Props :=
  [(pyS "DEPLOYER_USERNAME", pyS "bob"), (pyS "JENKINS_URL", pyS "http://j/"),
   (kLAT, pyS "100"), (kPNS, pyS "set-default"), (kROLLBACK, pyS "0520-x"),
   (kTOKEN, pyS "tok-z")]

/-- Acquire environment for the stale-holder scenario. -/
def env10 : AcquireEnv :=
  { readRes := some cp10
    now := 4000
    mkdirAt := fun _ => .eexist
    stampAt := fun _ => 4000
    jenkins_build_url := none }

/-- Git environment in which the target is neither a superset of master
nor a remote branch. -/
def git6 : GitEnv :=
  { isRemoteBranch := fun _ => false
    headAfterCheckout := pyS "abc123"
    revParse := fun r => if r = pyS "master" then pyS "mmm999" else pyS "abc123"
    mergeBase := fun _ _ => pyS "base000"
    showRefLines :=
      [pyS "abc123 refs/heads/master", pyS "def456 refs/remotes/origin/master"]
    mergeMasterOk := true
    pushOk := true }

/-- Record checked out on `feature-x` (concrete merge scenario). -/
def props6 : Props := [(kGITREV, pyS "feature-x")]

/-- A record mid-deploy (concrete rollback scenarios). -/
def props7 : Props :=
  [(pyS "DEPLOY_EMAIL", pyS "prod-deploy@example.com"),
   (pyS "DEPLOY_PW_FILE", pyS "/home/prod-deploy.pw"),
   (pyS "HIPCHAT_ROOM", pyS "deploys"),
   (kGITSHA, pyS "abc123"), (kROLLBACK, pyS "0510-prev"),
   (kVERSION, pyS "0515-abcd123")]

/-- Rollback environment whose live-version re-read succeeds with a
version that differs from the record's. -/
def E7 : RollbackEnv :=
  { currentGae := .ok (pyS "0599-other")
    tagList := fun _ => []
    tagCreate := .ok ()
    pushTags := .ok ()
    readPw := .ok ()
    setDefaultMain := .ok () }

/-- Rollback environment whose live-version re-read itself fails. -/
def E8 : RollbackEnv :=
  { currentGae := .error .ioError
    tagList := fun _ => []
    tagCreate := .ok ()
    pushTags := .ok ()
    readPw := .ok ()
    setDefaultMain := .ok () }

/-- Rollback environment in which the deploy did go live and the tag push
fails inside the protected sequence. -/
def E8b : RollbackEnv :=
  { currentGae := .ok (pyS "0515-abcd123")
    tagList := fun _ => []
    tagCreate := .ok ()
    pushTags := .error .calledProcessError
    readPw := .ok ()
    setDefaultMain := .ok () }

/-- A record with a newline inside the free-text `LAST_ERROR` field. -/
def props9bad : Props :=
  [(kLOCKDIR, pyS "/lk"),
   (kLASTERR, pyS "Command failed\nCalledProcessError: git push")]

/-- A well-formed record for the round-trip scenario. -/
def props9 : Props :=
  [(kTOKEN, pyS "tok-a"), (kLOCKDIR, pyS "/lk"), (kLASTERR, []),
   (kPNS, pyS "acquire-lock,finish-with-unlock,relock"),
   (kGITREV, pyS "feature-x")]

instance {ε α : Type} [DecidableEq ε] [DecidableEq α] :
    DecidableEq (Except ε α) := fun a b =>
  match a, b with
  | .error e, .error f =>
    decidable_of_iff (e = f) ⟨fun h => by rw [h], fun h => by injection h⟩
  | .error _, .ok _ => isFalse (fun h => Except.noConfusion h)
  | .ok _, .error _ => isFalse (fun h => Except.noConfusion h)
  | .ok x, .ok y =>
    decidable_of_iff (x = y) ⟨fun h => by rw [h], fun h => by injection h⟩

instance (kv : PyStr × PyStr) : Decidable (cleanPair kv) := by
  unfold cleanPair
  infer_instance

/-! ### Library lemmas -/

theorem splitOnChar_ne_nil (c : Char) (s : PyStr) : splitOnChar c s ≠ [] := by
  induction s with
  | nil => simp [splitOnChar]
  | cons a s _ =>
    simp only [splitOnChar]
    split
    · simp
    · split <;> simp

theorem splitOnChar_not_mem (c : Char) (s : PyStr) (h : c ∉ s) :
    splitOnChar c s = [s] := by
  induction s with
  | nil => rfl
  | cons a s ih =>
    simp only [List.mem_cons, not_or] at h
    simp only [splitOnChar]
    rw [if_neg (fun hh => h.1 hh.symm), ih h.2]

theorem splitOnChar_append_cons (c : Char) (l rest : PyStr) (h : c ∉ l) :
    splitOnChar c (l ++ c :: rest) = l :: splitOnChar c rest := by
  induction l with
  | nil => simp [splitOnChar]
  | cons a l ih =>
    simp only [List.mem_cons, not_or] at h
    simp only [List.cons_append, splitOnChar]
    rw [if_neg (fun hh => h.1 hh.symm)]
    simp only [List.append_eq]
    rw [ih h.2]

theorem mem_splitOnChar_not_sep (c : Char) (s : PyStr) :
    ∀ x ∈ splitOnChar c s, c ∉ x := by
  induction s with
  | nil =>
    intro x hx
    simp only [splitOnChar, List.mem_singleton] at hx
    subst hx; simp
  | cons a s ih =>
    intro x hx
    by_cases hac : a = c
    · simp only [splitOnChar, if_pos hac] at hx
      rcases List.mem_cons.mp hx with h1 | h1
      · subst h1; simp
      · exact ih x h1
    · simp only [splitOnChar, if_neg hac] at hx
      cases hS : splitOnChar c s with
      | nil => exact absurd hS (splitOnChar_ne_nil c s)
      | cons t ts =>
        rw [hS] at hx
        have ht : t ∈ splitOnChar c s := by
          rw [hS]; exact List.mem_cons_self t ts
        rcases List.mem_cons.mp hx with h1 | h1
        · subst h1
          intro hc
          rcases List.mem_cons.mp hc with h2 | h2
          · exact hac h2.symm
          · exact ih t ht h2
        · refine ih x ?_
          rw [hS]
          exact List.mem_cons_of_mem t h1

theorem splitOnChar_joinSep (c : Char) (xs : List PyStr) (hne : xs ≠ [])
    (h : ∀ x ∈ xs, c ∉ x) : splitOnChar c (joinSep c xs) = xs := by
  induction xs with
  | nil => exact absurd rfl hne
  | cons x xs ih =>
    cases xs with
    | nil => exact splitOnChar_not_mem c x (h x (List.mem_cons_self x []))
    | cons y ys =>
      have hj : joinSep c (x :: y :: ys) = x ++ c :: joinSep c (y :: ys) := rfl
      rw [hj, splitOnChar_append_cons c x _ (h x (List.mem_cons_self x _)),
        ih (by simp) (fun z hz => h z (List.mem_cons_of_mem x hz))]

theorem splitOnChar_flatten_lines (c : Char) (L : List PyStr)
    (h : ∀ l ∈ L, c ∉ l) :
    splitOnChar c ((L.map (fun l => l ++ [c])).flatten) = L ++ [[]] := by
  induction L with
  | nil => rfl
  | cons l L ih =>
    simp only [List.map_cons, List.flatten_cons]
    rw [List.append_assoc, List.singleton_append,
      splitOnChar_append_cons c l _ (h l (List.mem_cons_self l L)),
      ih (fun x hx => h x (List.mem_cons_of_mem l hx))]
    rfl

theorem splitFirst_append_cons (c : Char) (k v : PyStr) (h : c ∉ k) :
    splitFirst c (k ++ c :: v) = some (k, v) := by
  induction k with
  | nil => simp [splitFirst]
  | cons a k ih =>
    simp only [List.mem_cons, not_or] at h
    simp only [List.cons_append, splitFirst]
    rw [if_neg (fun hh => h.1 hh.symm)]
    simp only [List.append_eq]
    rw [ih h.2]

theorem pget_append_of_none (l m : Props) (k : PyStr) (h : pget l k = none) :
    pget (l ++ m) k = pget m k := by
  induction l with
  | nil => rfl
  | cons kv l ih =>
    simp only [pget] at h ⊢
    by_cases h1 : kv.1 = k
    · rw [if_pos h1] at h; exact absurd h (by simp)
    · rw [if_neg h1] at h ⊢
      exact ih h

theorem pget_append_of_some (l m : Props) (k v : PyStr) (h : pget l k = some v) :
    pget (l ++ m) k = some v := by
  induction l with
  | nil => simp [pget] at h
  | cons kv l ih =>
    simp only [pget] at h ⊢
    by_cases h1 : kv.1 = k
    · rw [if_pos h1] at h ⊢; exact h
    · rw [if_neg h1] at h ⊢
      exact ih h

theorem pget_eq_none_iff (l : Props) (k : PyStr) :
    pget l k = none ↔ k ∉ l.map Prod.fst := by
  induction l with
  | nil => simp [pget]
  | cons kv l ih =>
    simp only [pget, List.map_cons, List.mem_cons]
    by_cases h : kv.1 = k
    · simp [h]
    · rw [if_neg h, ih]
      constructor
      · intro hk hor
        rcases hor with h1 | h1
        · exact h h1.symm
        · exact hk h1
      · intro hk h1
        exact hk (Or.inr h1)

theorem pget_mem (l : Props) (k v : PyStr) (h : pget l k = some v) :
    (k, v) ∈ l := by
  induction l with
  | nil => simp [pget] at h
  | cons kv l ih =>
    simp only [pget] at h
    by_cases hh : kv.1 = k
    · rw [if_pos hh] at h
      injection h with h
      have : kv = (k, v) := by
        cases kv
        simp only at hh h
        rw [hh, h]
      rw [← this]
      exact List.mem_cons_self kv l
    · rw [if_neg hh] at h
      exact List.mem_cons_of_mem kv (ih h)

theorem mem_pget (l : Props) (k v : PyStr) (hnd : (l.map Prod.fst).Nodup)
    (h : (k, v) ∈ l) : pget l k = some v := by
  induction l with
  | nil => simp at h
  | cons kv l ih =>
    simp only [List.map_cons, List.nodup_cons] at hnd
    rcases List.mem_cons.mp h with h1 | h1
    · rw [← h1]
      simp [pget]
    · have hk : kv.1 ≠ k := by
        intro he
        exact hnd.1 (he ▸ (List.mem_map.mpr ⟨(k, v), h1, rfl⟩))
      simp only [pget, if_neg hk]
      exact ih hnd.2 h1

theorem pget_perm (l l' : Props) (k : PyStr) (hp : l.Perm l')
    (hnd : (l.map Prod.fst).Nodup) : pget l k = pget l' k := by
  have hnd' : (l'.map Prod.fst).Nodup := ((hp.map Prod.fst).nodup_iff).mp hnd
  cases h : pget l k with
  | some v => exact (mem_pget l' k v hnd' (hp.mem_iff.mp (pget_mem l k v h))).symm
  | none =>
    symm
    rw [pget_eq_none_iff] at h ⊢
    intro hk
    exact h (((hp.map Prod.fst).mem_iff).mpr hk)

theorem pget_filter_ne (p : Props) (a k : PyStr) (h : a ≠ k) :
    pget (p.filter (fun kv => decide (kv.1 ≠ a))) k = pget p k := by
  induction p with
  | nil => rfl
  | cons kv p ih =>
    by_cases h1 : kv.1 = a
    · rw [List.filter_cons_of_neg (by simp [h1]), ih]
      simp only [pget]
      rw [if_neg (h1 ▸ h)]
    · rw [List.filter_cons_of_pos (by simp [h1])]
      simp only [pget]
      by_cases h2 : kv.1 = k
      · rw [if_pos h2, if_pos h2]
      · rw [if_neg h2, if_neg h2, ih]

theorem pget_pset_self (p : Props) (k v : PyStr) : pget (pset p k v) k = some v := by
  unfold pset
  rw [pget_append_of_none]
  · simp [pget]
  · rw [pget_eq_none_iff]
    simp only [List.mem_map, not_exists, not_and]
    intro kv hmem hfst
    have := List.of_mem_filter hmem
    simp only [decide_eq_true_eq] at this
    exact this hfst

theorem pget_pset_ne (p : Props) (a v k : PyStr) (h : a ≠ k) :
    pget (pset p a v) k = pget p k := by
  unfold pset
  cases hc : pget (p.filter fun kv => decide (kv.1 ≠ a)) k with
  | some w =>
    rw [pget_append_of_some _ _ _ _ hc, ← pget_filter_ne p a k h, hc]
  | none =>
    rw [pget_append_of_none _ _ _ hc, ← pget_filter_ne p a k h, hc]
    simp [pget, h]

theorem pget_psetdefault_ne (p : Props) (a v k : PyStr) (h : a ≠ k) :
    pget (psetdefault p a v) k = pget p k := by
  unfold psetdefault
  cases hpa : pget p a with
  | some w => rfl
  | none => exact pget_pset_ne p a v k h

theorem pset_eq_append (p : Props) (k v : PyStr) (h : pget p k = none) :
    pset p k v = p ++ [(k, v)] := by
  unfold pset
  congr 1
  apply List.filter_eq_self.mpr
  intro kv hmem
  simp only [decide_eq_true_eq]
  rw [pget_eq_none_iff] at h
  intro he
  exact h (he ▸ List.mem_map.mpr ⟨kv, hmem, rfl⟩)

theorem pupdate_append_single (p m : Props) (k v : PyStr) :
    pupdate p (m ++ [(k, v)]) = pset (pupdate p m) k v := by
  unfold pupdate
  rw [List.foldl_append]
  rfl

theorem lexLeb_total (a b : PyStr) : lexLeb a b = true ∨ lexLeb b a = true := by
  induction a generalizing b with
  | nil => left; rfl
  | cons c s ih =>
    cases b with
    | nil => right; rfl
    | cons d t =>
      rcases lt_trichotomy c d with h | h | h
      · left; simp [lexLeb, h]
      · subst h
        rcases ih t with h1 | h1
        · left; simp [lexLeb, lt_self_iff_false, h1]
        · right; simp [lexLeb, lt_self_iff_false, h1]
      · right; simp [lexLeb, h]

theorem lexLeb_antisymm (a b : PyStr) (h1 : lexLeb a b = true)
    (h2 : lexLeb b a = true) : a = b := by
  induction a generalizing b with
  | nil =>
    cases b with
    | nil => rfl
    | cons d t => simp [lexLeb] at h2
  | cons c s ih =>
    cases b with
    | nil => simp [lexLeb] at h1
    | cons d t =>
      rcases lt_trichotomy c d with h | h | h
      · have hdc : ¬ d < c := lt_asymm h
        have hne : d ≠ c := ne_of_gt h
        simp [lexLeb, hdc, hne] at h2
      · subst h
        simp only [lexLeb, lt_self_iff_false, if_false, if_pos rfl] at h1 h2
        rw [ih t h1 h2]
      · have hcd : ¬ c < d := lt_asymm h
        have hne : c ≠ d := ne_of_gt h
        simp [lexLeb, hcd, hne] at h1

theorem lexLeb_trans (a b c : PyStr) (h1 : lexLeb a b = true)
    (h2 : lexLeb b c = true) : lexLeb a c = true := by
  induction a generalizing b c with
  | nil => rfl
  | cons x s ih =>
    cases b with
    | nil => simp [lexLeb] at h1
    | cons y t =>
      cases c with
      | nil => simp [lexLeb] at h2
      | cons z u =>
        rcases lt_trichotomy x y with hxy | hxy | hxy
        · rcases lt_trichotomy y z with hyz | hyz | hyz
          · simp [lexLeb, lt_trans hxy hyz]
          · subst hyz; simp [lexLeb, hxy]
          · have hy : ¬ y < z := lt_asymm hyz
            simp [lexLeb, hy, ne_of_gt hyz] at h2
        · subst hxy
          simp only [lexLeb, lt_self_iff_false, if_false, if_pos rfl] at h1
          rcases lt_trichotomy x z with hyz | hyz | hyz
          · simp [lexLeb, hyz]
          · subst hyz
            simp only [lexLeb, lt_self_iff_false, if_false, if_pos rfl] at h2 ⊢
            exact ih t u h1 h2
          · have hy : ¬ x < z := lt_asymm hyz
            simp [lexLeb, hy, ne_of_gt hyz] at h2
        · have hy : ¬ x < y := lt_asymm hxy
          simp [lexLeb, hy, ne_of_gt hxy] at h1

instance : IsTotal (PyStr × PyStr) pairLe := by
  constructor
  intro a b
  unfold pairLe pairLeb
  by_cases h : a.1 = b.1
  · rw [if_pos h, if_pos h.symm]
    rcases lexLeb_total a.2 b.2 with h1 | h1
    · left; exact h1
    · right; exact h1
  · rw [if_neg h, if_neg (Ne.symm h)]
    rcases lexLeb_total a.1 b.1 with h1 | h1
    · left; exact h1
    · right; exact h1

instance : IsTrans (PyStr × PyStr) pairLe := by
  constructor
  intro a b c h1 h2
  unfold pairLe pairLeb at h1 h2 ⊢
  by_cases hab : a.1 = b.1 <;> by_cases hbc : b.1 = c.1
  · rw [if_pos hab] at h1
    rw [if_pos hbc] at h2
    rw [if_pos (hab.trans hbc)]
    exact lexLeb_trans _ _ _ h1 h2
  · rw [if_neg hbc] at h2
    have hac : ¬ a.1 = c.1 := fun he => hbc (hab.symm.trans he)
    rw [if_neg hac, hab]
    exact h2
  · rw [if_neg hab] at h1
    have hac : ¬ a.1 = c.1 := fun he => hab (he.trans hbc.symm)
    rw [if_neg hac, ← hbc]
    exact h1
  · rw [if_neg hab] at h1
    rw [if_neg hbc] at h2
    have hac : ¬ a.1 = c.1 := by
      intro he
      have h2' : lexLeb b.1 a.1 = true := by rw [he]; exact h2
      exact hab (lexLeb_antisymm _ _ h1 h2')
    rw [if_neg hac]
    exact lexLeb_trans _ _ _ h1 h2

instance : IsAntisymm (PyStr × PyStr) pairLe := by
  constructor
  intro a b h1 h2
  unfold pairLe pairLeb at h1 h2
  by_cases hab : a.1 = b.1
  · rw [if_pos hab] at h1
    rw [if_pos hab.symm] at h2
    have hv := lexLeb_antisymm _ _ h1 h2
    cases a; cases b
    simp only at hab hv
    rw [hab, hv]
  · rw [if_neg hab] at h1
    rw [if_neg (Ne.symm hab)] at h2
    exact absurd (lexLeb_antisymm _ _ h1 h2) hab

theorem sortPairs_sorted (l : List (PyStr × PyStr)) :
    List.Sorted pairLe (sortPairs l) := List.sorted_insertionSort pairLe l

theorem sortPairs_perm (l : List (PyStr × PyStr)) : (sortPairs l).Perm l :=
  List.perm_insertionSort pairLe l

theorem sortPairs_idem (l : List (PyStr × PyStr)) :
    sortPairs (sortPairs l) = sortPairs l :=
  List.eq_of_perm_of_sorted (sortPairs_perm (sortPairs l))
    (sortPairs_sorted _) (sortPairs_sorted l)

theorem mem_sortedSet (x : PyStr) (l : List PyStr) :
    x ∈ sortedSet l ↔ x ∈ l := by
  unfold sortedSet sortStrs
  rw [(List.perm_insertionSort strLe l.dedup).mem_iff, List.mem_dedup]

theorem pget_ruleVersion (g : PyStr → PyStr) (nv : Props) :
    pget (ruleVersion g nv) kPNS = pget nv kPNS := by
  unfold ruleVersion
  split
  · exact pget_psetdefault_ne _ _ _ _ (by decide)
  · rfl

theorem pget_ruleUsername (nv : Props) :
    pget (ruleUsername nv) kPNS = pget nv kPNS := by
  unfold ruleUsername
  split
  · exact pget_psetdefault_ne _ _ _ _ (by decide)
  · rfl

theorem pget_ruleHipchat (h : PyStr → PyStr) (nv : Props) :
    pget (ruleHipchat h nv) kPNS = pget nv kPNS := by
  unfold ruleHipchat
  split
  · exact pget_psetdefault_ne _ _ _ _ (by decide)
  · rfl

theorem pget_ruleLockTime (now : Int) (nv : Props) :
    pget (ruleLockTime now nv) kPNS = pget nv kPNS := by
  unfold ruleLockTime
  split
  · exact pget_psetdefault_ne _ _ _ _ (by decide)
  · rfl

theorem pget_update_PNS (g h : PyStr → PyStr) (now : Int) (props nv : Props)
    (s : PyStr) (hin : pget nv kPNS = some s) :
    pget (_update_properties g h now props nv) kPNS =
      some (joinSep ',' (sortedSet (splitOnChar ',' s ++ escapeHatches))) := by
  unfold _update_properties ruleNextSteps
  have h4 : pget (ruleLockTime now (ruleHipchat h (ruleUsername
      (ruleVersion g nv)))) kPNS = some s := by
    rw [pget_ruleLockTime, pget_ruleHipchat, pget_ruleUsername,
      pget_ruleVersion, hin]
  simp only [h4]
  rw [pset, pupdate_append_single, pget_pset_self]

theorem splitOnChar_joinSep_union (s : PyStr) :
    splitOnChar ',' (joinSep ','
        (sortedSet (splitOnChar ',' s ++ escapeHatches))) =
      sortedSet (splitOnChar ',' s ++ escapeHatches) := by
  have hmem : pyS "relock" ∈ sortedSet (splitOnChar ',' s ++ escapeHatches) := by
    rw [mem_sortedSet]
    exact List.mem_append_right _ (by decide)
  apply splitOnChar_joinSep
  · exact List.ne_nil_of_mem hmem
  · intro x hx
    rw [mem_sortedSet] at hx
    rcases List.mem_append.mp hx with h1 | h1
    · exact mem_splitOnChar_not_sep ',' s x h1
    · exact (by decide : ∀ y ∈ escapeHatches, ',' ∉ y) x h1

theorem parseLinePy_lineOf (kv : PyStr × PyStr) (h1 : '=' ∉ kv.1)
    (h3 : pyStrip (lineOf kv) = lineOf kv) :
    parseLinePy (lineOf kv) = .ok kv := by
  unfold parseLinePy
  unfold lineOf at h3 ⊢
  rw [h3, splitFirst_append_cons '=' kv.1 kv.2 h1]

theorem parseAll_clean (ps : Props) : ∀ acc : Props,
    (∀ kv ∈ ps, parseLinePy (lineOf kv) = .ok kv) →
    ((acc ++ ps).map Prod.fst).Nodup →
    parseAll (ps.map lineOf) acc = .ok (acc ++ ps) := by
  induction ps with
  | nil =>
    intro acc _ _
    simp [parseAll]
  | cons kv ps ih =>
    intro acc hp hnd
    obtain ⟨k, v⟩ := kv
    simp only [List.map_cons, parseAll]
    rw [hp (k, v) (List.mem_cons_self _ ps)]
    show parseAll (ps.map lineOf) (pset acc k v) = .ok (acc ++ (k, v) :: ps)
    have hknotin : pget acc k = none := by
      rw [pget_eq_none_iff]
      intro hmem
      simp only [List.map_append, List.map_cons] at hnd
      rcases List.nodup_append.mp hnd with ⟨_, _, hdisj⟩
      exact hdisj hmem (List.mem_cons_self _ _)
    rw [pset_eq_append acc k v hknotin]
    have hnd2 : (((acc ++ [(k, v)]) ++ ps).map Prod.fst).Nodup := by
      rw [List.append_assoc, List.singleton_append]
      exact hnd
    rw [ih (acc ++ [(k, v)])
      (fun kv2 h2 => hp kv2 (List.mem_cons_of_mem _ h2)) hnd2]
    rw [List.append_assoc, List.singleton_append]

theorem timeoutTail_effects (cp p : Props) (w : Int) (effs : List Effect) :
    (timeoutTail cp p w effs).2 = effs ∨
      ∃ m, (timeoutTail cp p w effs).2 =
        effs ++ [Effect.alert true sevERROR m] := by
  unfold timeoutTail
  cases pget cp kPNS with
  | none => left; rfl
  | some pns =>
    simp only
    split
    all_goals
      first
      | (left; rfl)
      | (split
         all_goals
           first
           | (right; exact ⟨_, rfl⟩)
           | (left; rfl))

/-! ### Claim theorems -/

theorem pget_create_PNS (g h : PyStr → PyStr) (a : CreateArgs) :
    pget (_create_properties g h a) kPNS =
      some (pyS "acquire-lock,finish-with-unlock,relock") := rfl

/-- C1 counterexample: at a concrete argument tuple, the record created by
`_create_properties` does *not* have legal-next-actions equal to
`{acquire-lock, finish-with-failure, finish-with-rollback,
finish-with-unlock, relock}` — the seeded string is
`acquire-lock,finish-with-unlock,relock`, missing two escape hatches. -/
theorem C1_counterexample :
    (splitOnChar ','
        ((pget (_create_properties gv0 hm0 cargs0) kPNS).getD [])).toFinset ≠
      ({pyS "acquire-lock", pyS "finish-with-failure",
        pyS "finish-with-rollback", pyS "finish-with-unlock",
        pyS "relock"} : Finset PyStr) := by
  decide

/-- C1 (amended): for every argument tuple, `_create_properties` seeds
`POSSIBLE_NEXT_STEPS` to exactly the three-element set
`{acquire-lock, finish-with-unlock, relock}` (of the four escape hatches,
only finish-with-unlock and relock; the other two are merged in only by
the first `_update_properties` that touches the field). -/
theorem C1_amended_create_seeds (g h : PyStr → PyStr) (a : CreateArgs) :
    (splitOnChar ','
        ((pget (_create_properties g h a) kPNS).getD [])).toFinset =
      ({pyS "acquire-lock", pyS "finish-with-unlock",
        pyS "relock"} : Finset PyStr) := by
  rw [pget_create_PNS]
  decide

/-- C2 counterexample: updating the freshly created record (whose
legal-next-actions set lacks finish-with-failure) with the change-set
`{LAST_ERROR: ''}` — the dispatcher's own success-path update — leaves
the stored set without finish-with-failure, so it is not true that after
every update the set contains all four escape hatches. -/
theorem C2_counterexample :
    pyS "finish-with-failure" ∉
      splitOnChar ','
        ((pget (_update_properties gv0 hm0 0
            (_create_properties gv0 hm0 cargs0) [(kLASTERR, [])])
          kPNS).getD []) := by
  decide

/-- C2 (amended): whenever the change-set passed to `_update_properties`
contains `POSSIBLE_NEXT_STEPS`, the stored value after the update is the
sorted comma-join of the caller's set unioned with the escape hatches, and
its set contains all four of finish-with-failure, finish-with-rollback,
finish-with-unlock and relock.  (An update whose change-set omits the
field leaves it untouched, so a record that lacked a hatch keeps lacking
it — the counterexample.) -/
theorem C2_amended_update_hatches (g h : PyStr → PyStr) (now : Int)
    (props nv : Props) (s : PyStr) (hin : pget nv kPNS = some s) :
    pget (_update_properties g h now props nv) kPNS =
      some (joinSep ',' (sortedSet (splitOnChar ',' s ++ escapeHatches))) ∧
    (∀ x ∈ escapeHatches,
      x ∈ splitOnChar ','
        ((pget (_update_properties g h now props nv) kPNS).getD [])) := by
  have hval := pget_update_PNS g h now props nv s hin
  refine ⟨hval, ?_⟩
  intro x hx
  rw [hval]
  simp only [Option.getD_some]
  rw [splitOnChar_joinSep_union, mem_sortedSet]
  exact List.mem_append_right _ hx

/-- C2 witness: the amended statement at a concrete record and
change-set. -/
theorem C2_amended_update_hatches_witness :
    pget (_update_properties gv0 hm0 0 props3
        [(kPNS, pyS "merge-from-master")]) kPNS =
      some (joinSep ',' (sortedSet (splitOnChar ',' (pyS "merge-from-master")
        ++ escapeHatches))) ∧
    (∀ x ∈ escapeHatches,
      x ∈ splitOnChar ','
        ((pget (_update_properties gv0 hm0 0 props3
            [(kPNS, pyS "merge-from-master")]) kPNS).getD [])) :=
  C2_amended_update_hatches gv0 hm0 0 props3
    [(kPNS, pyS "merge-from-master")] (pyS "merge-from-master") rfl

/-- C9 counterexample: a record whose free-text `LAST_ERROR` contains a
newline does not round-trip — `_read_properties` of the written file
fails with `ValueError` (a line with no `=`), so
`write(read(write(R))) = write(R)` fails for free-text fields. -/
theorem C9_counterexample :
    _read_properties (pyS "/lk") (_write_properties props9bad) =
      .error .valueError := by
  decide

/-- C9 (amended): for every record with distinct keys whose lines are
newline-free, `=`-free in the key, and `strip()`-invariant, reading back
the written file succeeds (yielding the key-sorted pairs) and re-writing
reproduces the file byte for byte:
`read(write(R)) = sort(R)` and `write(read(write(R))) = write(R)`. -/
theorem C9_amended_roundtrip (props : Props) (d : PyStr)
    (hnd : (props.map Prod.fst).Nodup)
    (hclean : ∀ kv ∈ props, cleanPair kv)
    (hd : pget props kLOCKDIR = some d) :
    _read_properties d (_write_properties props) = .ok (sortPairs props) ∧
    _write_properties (sortPairs props) = _write_properties props := by
  have hperm := sortPairs_perm props
  have hclean' : ∀ kv ∈ sortPairs props, cleanPair kv :=
    fun kv hk => hclean kv (hperm.mem_iff.mp hk)
  have hnd' : ((sortPairs props).map Prod.fst).Nodup :=
    ((hperm.map Prod.fst).nodup_iff).mpr hnd
  have hw : _write_properties props =
      (((sortPairs props).map lineOf).map (fun l => l ++ ['\n'])).flatten := by
    unfold _write_properties
    rw [List.map_map]
    rfl
  have hnl : ∀ l ∈ (sortPairs props).map lineOf, '\n' ∉ l := by
    intro l hl
    rcases List.mem_map.mp hl with ⟨kv, hkv, rfl⟩
    exact (hclean' kv hkv).2.1
  have hlines : pyReadLines (_write_properties props) =
      (sortPairs props).map lineOf := by
    rw [hw]
    unfold pyReadLines
    rw [splitOnChar_flatten_lines '\n' _ hnl]
    simp [List.getLast?_concat, List.dropLast_concat]
  have hparse : ∀ kv ∈ sortPairs props, parseLinePy (lineOf kv) = .ok kv := by
    intro kv hk
    rcases hclean' kv hk with ⟨h1, _, h3⟩
    exact parseLinePy_lineOf kv h1 h3
  have hpa : parseAll ((sortPairs props).map lineOf) [] =
      .ok (sortPairs props) := by
    have := parseAll_clean (sortPairs props) [] hparse (by simpa using hnd')
    simpa using this
  have hdl : pget (sortPairs props) kLOCKDIR = some d := by
    rw [pget_perm _ props _ hperm hnd']
    exact hd
  constructor
  · unfold _read_properties
    rw [hlines]
    simp only [hpa, hdl]
    simp
  · unfold _write_properties
    rw [sortPairs_idem]

/-- C9 witness: the amended round-trip at a concrete, deliberately
unsorted record. -/
theorem C9_amended_roundtrip_witness :
    _read_properties (pyS "/lk") (_write_properties props9) =
      .ok (sortPairs props9) ∧
    _write_properties (sortPairs props9) = _write_properties props9 :=
  C9_amended_roundtrip props9 (pyS "/lk") (by decide) (by decide) (by decide)

/-- C3: token isolation.  For every dispatch whose record loads, when the
supplied token is non-empty, the stored `TOKEN` is non-empty and the two
differ, the dispatcher returns success=true with exactly one alert — at
severity error and *not* prefixed with the recorded username — and its
trace contains no `_write_properties` call and no stage-handler run. -/
theorem C3_token_isolation (g h : PyStr → PyStr) (now : Int) (H : Handlers)
    (cargs : CreateArgs) (action lockdir : PyStr) (file : Option PyStr)
    (token caller_email : PyStr) (props : Props) (t : PyStr)
    (hload : loadRecord g h cargs action lockdir file = (.got props, []))
    (ht : pget props kTOKEN = some t) (htne : t ≠ []) (hne : token ≠ [])
    (hdiff : token ≠ t) :
    mainDispatch g h now H cargs action lockdir file token caller_email =
      (.ok true, [Effect.alert false sevERROR .tokenMismatch]) ∧
    (∀ f, Effect.writeProps f ∉
      (mainDispatch g h now H cargs action lockdir file token caller_email).2) ∧
    (∀ a, Effect.stage a ∉
      (mainDispatch g h now H cargs action lockdir file token caller_email).2) := by
  have hcond : token ≠ [] ∧ (pget props kTOKEN).getD [] ≠ [] ∧
      token ≠ (pget props kTOKEN).getD [] := by
    rw [ht]
    simp only [Option.getD_some]
    exact ⟨hne, htne, hdiff⟩
  have hmain : mainDispatch g h now H cargs action lockdir file token
      caller_email = (.ok true, [Effect.alert false sevERROR .tokenMismatch]) := by
    unfold mainDispatch
    simp only [hload]
    unfold tokenAndRun
    rw [if_pos hcond]
    simp
  refine ⟨hmain, ?_, ?_⟩
  · intro f
    rw [hmain]
    simp
  · intro a
    rw [hmain]
    simp

/-- C3 witness: the token-isolation theorem at a concrete dispatch
(stored token `tok-a`, supplied token `tok-b`). -/
theorem C3_token_isolation_witness :
    mainDispatch gv0 hm0 0 H0 cargs0 (pyS "set-default") (pyS "/lk")
        (some (_write_properties props3)) (pyS "tok-b") (pyS "c@e.com") =
      (.ok true, [Effect.alert false sevERROR .tokenMismatch]) :=
  (C3_token_isolation gv0 hm0 0 H0 cargs0 (pyS "set-default") (pyS "/lk")
    (some (_write_properties props3)) (pyS "tok-b") (pyS "c@e.com") props3
    (pyS "tok-a") (by decide) (by decide) (by decide) (by decide)
    (by decide)).1

/-- C4 counterexample: a dispatch whose supplied token `tok-b` is
non-empty and differs from the record's stored `TOKEN` — which is the
*empty string* — still executes the requested action (the stage handler
runs), because the source skips the check when the stored token is
falsy (`token and props.get('TOKEN') and ...`). -/
theorem C4_counterexample :
    Effect.stage (pyS "finish-with-failure") ∈
      (mainDispatch gv0 hm0 0 H0 cargs0 (pyS "finish-with-failure")
        (pyS "/lk") (some (_write_properties props4)) (pyS "tok-b")
        (pyS "c@e.com")).2 := by
  decide

/-- C4 (amended): a dispatch with a non-empty supplied token differing
from the record's stored token is rejected — no stage handler runs —
*provided the stored token is itself non-empty*; when the stored token is
empty or absent the check is skipped (the counterexample). -/
theorem C4_amended_reject (g h : PyStr → PyStr) (now : Int) (H : Handlers)
    (cargs : CreateArgs) (action lockdir : PyStr) (file : Option PyStr)
    (token caller_email : PyStr) (props : Props) (t : PyStr)
    (hload : loadRecord g h cargs action lockdir file = (.got props, []))
    (ht : pget props kTOKEN = some t) (htne : t ≠ []) (hne : token ≠ [])
    (hdiff : token ≠ t) :
    ∀ a, Effect.stage a ∉
      (mainDispatch g h now H cargs action lockdir file token caller_email).2 := by
  have hcond : token ≠ [] ∧ (pget props kTOKEN).getD [] ≠ [] ∧
      token ≠ (pget props kTOKEN).getD [] := by
    rw [ht]
    simp only [Option.getD_some]
    exact ⟨hne, htne, hdiff⟩
  have hmain : mainDispatch g h now H cargs action lockdir file token
      caller_email = (.ok true, [Effect.alert false sevERROR .tokenMismatch]) := by
    unfold mainDispatch
    simp only [hload]
    unfold tokenAndRun
    rw [if_pos hcond]
    simp
  intro a
  rw [hmain]
  simp

/-- C4 witness: the amended rejection at a concrete dispatch with both
tokens non-empty. -/
theorem C4_amended_reject_witness :
    Effect.stage (pyS "set-default") ∉
      (mainDispatch gv0 hm0 0 H0 cargs0 (pyS "set-default") (pyS "/lk")
        (some (_write_properties props3)) (pyS "tok-b") (pyS "c@e.com")).2 :=
  C4_amended_reject gv0 hm0 0 H0 cargs0 (pyS "set-default") (pyS "/lk")
    (some (_write_properties props3)) (pyS "tok-b") (pyS "c@e.com") props3
    (pyS "tok-a") (by decide) (by decide) (by decide) (by decide) (by decide)
    (pyS "set-default")

/-- C7: rollback no-op idempotence.  Whenever the re-read current live
version differs from the record's `VERSION_NAME`, `_rollback_deploy`
returns success (`True`) with an empty effect trace: no tag creation, no
tag push, no `set_default` executor call. -/
theorem C7_rollback_noop (E : RollbackEnv) (props : Props) (v rb cur : PyStr)
    (h1 : pget props kVERSION = some v) (h2 : pget props kROLLBACK = some rb)
    (h3 : E.currentGae = .ok cur) (h4 : cur ≠ v) :
    (_rollback_deploy E props).1 = .ok true ∧
    (∀ tg, Effect.gitTagCreate tg ∉ (_rollback_deploy E props).2) ∧
    Effect.gitPushTags ∉ (_rollback_deploy E props).2 ∧
    (∀ vv, Effect.setDefaultCall vv ∉ (_rollback_deploy E props).2) := by
  have heq : _rollback_deploy E props = (.ok true, []) := by
    unfold _rollback_deploy
    simp only [h3, h1, h2]
    rw [if_pos h4]
  rw [heq]
  refine ⟨rfl, ?_, ?_, ?_⟩ <;> simp

/-- C7 witness: the no-op at a concrete record whose deploy never went
live (live version `0599-other`, record version `0515-abcd123`). -/
theorem C7_rollback_noop_witness :
    (_rollback_deploy E7 props7).1 = .ok true ∧
    (∀ tg, Effect.gitTagCreate tg ∉ (_rollback_deploy E7 props7).2) ∧
    Effect.gitPushTags ∉ (_rollback_deploy E7 props7).2 ∧
    (∀ vv, Effect.setDefaultCall vv ∉ (_rollback_deploy E7 props7).2) :=
  C7_rollback_noop E7 props7 (pyS "0515-abcd123") (pyS "0510-prev")
    (pyS "0599-other") (by decide) (by decide) (by decide) (by decide)

/-- C8 counterexample: when the live-version re-read itself fails —
the first step of the sequence the claim covers — `_rollback_deploy`
surfaces the failure as a raised exception (`IOError`), not as boolean
`False`: that step happens before the `try`. -/
theorem C8_counterexample :
    _rollback_deploy E8 props7 = (.error .ioError, []) := by
  decide

/-- C8 (amended): once the pre-`try` part has succeeded (the live-version
re-read and the `VERSION_NAME`/`ROLLBACK_TO` lookups), `_rollback_deploy`
never raises — the result is boolean `True` or `False` — and, moreover,
whenever the deploy did go live (`cur = v`) and the protected
tag/push/set-default/bad-tag-check sequence fails, that failure is
surfaced as exactly boolean `False`, with the critical manual-recovery
alert appended after the sequence's own trace. -/
theorem C8_amended_no_raise (E : RollbackEnv) (props : Props) (cur v rb : PyStr)
    (h1 : E.currentGae = .ok cur) (h2 : pget props kVERSION = some v)
    (h3 : pget props kROLLBACK = some rb) :
    ((_rollback_deploy E props).1 = .ok true ∨
     (_rollback_deploy E props).1 = .ok false) ∧
    (∀ e effs, cur = v → rollbackTry E props rb = (.error e, effs) →
      _rollback_deploy E props =
        (.ok false, Effect.alert true sevINFO .autoRolling ::
          (effs ++ [Effect.alert true sevCRITICAL .rollbackFailedManual]))) := by
  constructor
  · unfold _rollback_deploy
    simp only [h1, h2, h3]
    by_cases h4 : cur ≠ v
    · rw [if_pos h4]
      left
      rfl
    · rw [if_neg h4]
      rcases hr : rollbackTry E props rb with ⟨u, effs⟩
      cases u with
      | ok a =>
        simp only [hr]
        left
        trivial
      | error e =>
        simp only [hr]
        right
        trivial
  · intro e effs hv hr
    unfold _rollback_deploy
    simp only [h1, h2, h3]
    rw [if_neg (fun hh => hh hv)]
    simp only [hr]
    simp

/-- C8 witness: the amended statement at a concrete rollback whose tag
push fails inside the protected sequence — the result is boolean `False`
and the trace ends with the critical manual-recovery alert. -/
theorem C8_amended_no_raise_witness :
    _rollback_deploy E8b props7 =
      (.ok false, Effect.alert true sevINFO .autoRolling ::
        ([Effect.gitTagCreate (pyS "gae-0515-abcd123-bad"),
          Effect.gitPushTags] ++
         [Effect.alert true sevCRITICAL .rollbackFailedManual])) :=
  (C8_amended_no_raise E8b props7 (pyS "0515-abcd123") (pyS "0515-abcd123")
    (pyS "0510-prev") (by decide) (by decide) (by decide)).2
    .calledProcessError
    [Effect.gitTagCreate (pyS "gae-0515-abcd123-bad"), Effect.gitPushTags]
    rfl (by decide)

/-- C6 (code bug): at a concrete record whose target is neither a
superset of master nor a remote branch, `merge_from_master` raises
`TypeError` — the not-a-branch message is built with two `%s`
placeholders but a single argument, so the `%` formatting blows up before
the intended `ValueError` (naming all branches) can be raised. -/
theorem C6_typeerror_demo :
    merge_from_master git6 props6 = .error .typeError := by
  decide

/-- C5 (code bug): at a concrete call in which the holder's record could
not be read (`current_props = {}`, elapsed wait treated as zero) and the
lock never frees, reaching `wait_sec` does *not* produce the stuck-lock
alert and `RuntimeError`: the timeout path's raw
`current_props['POSSIBLE_NEXT_STEPS']` lookup raises `KeyError`, and no
severity-error alert is emitted. -/
theorem C5_timeout_keyerror_demo :
    acquire_deploy_lock env5 (_create_properties gv0 hm0 cargs0) 20 600 =
      (.error .keyError,
       [Effect.mkdirAttempt, Effect.alert true sevINFO .queuedFirst,
        Effect.mkdirAttempt]) ∧
    (∀ m, Effect.alert true sevERROR m ∉
      (acquire_deploy_lock env5 (_create_properties gv0 hm0 cargs0)
        20 600).2) := by
  have heq : acquire_deploy_lock env5 (_create_properties gv0 hm0 cargs0)
      20 600 =
      (.error .keyError,
       [Effect.mkdirAttempt, Effect.alert true sevINFO .queuedFirst,
        Effect.mkdirAttempt]) := by decide
  refine ⟨heq, ?_⟩
  intro m
  rw [heq]
  simp [sevERROR, sevINFO]

/-- C10: when the holder's record reads back with a `LOCK_ACQUIRE_TIME`
at least `wait_sec` seconds in the past, the busy-wait loop body never
executes — zero `os.mkdir` attempts — and `acquire_deploy_lock` goes
directly to the timeout failure path, because the elapsed wait is
initialised from the holder's acquisition time. -/
theorem C10_skip_wait_loop (env : AcquireEnv) (props cp : Props)
    (ld s : PyStr) (wait_sec notify_sec t : Int)
    (h0 : pget props kLOCKDIR = some ld)
    (h1 : env.readRes = some cp)
    (h2 : pget cp kLAT = some s)
    (h3 : pyInt? s = some t)
    (h4 : wait_sec ≤ env.now - t) :
    acquire_deploy_lock env props wait_sec notify_sec =
      timeoutTail cp props (env.now - t) [] ∧
    Effect.mkdirAttempt ∉
      (acquire_deploy_lock env props wait_sec notify_sec).2 := by
  have heq : acquire_deploy_lock env props wait_sec notify_sec =
      timeoutTail cp props (env.now - t) [] := by
    unfold acquire_deploy_lock
    simp only [h0, h1, h2, h3]
    rw [acquireLoop]
    rw [if_neg (not_lt.mpr h4)]
  refine ⟨heq, ?_⟩
  rw [heq]
  rcases timeoutTail_effects cp props (env.now - t) [] with hh | ⟨m, hh⟩ <;>
    rw [hh] <;> simp

/-- C10 witness: the theorem at a concrete stale holder (acquired at time
100, caller arriving at time 4000, `wait_sec = 3600`). -/
theorem C10_skip_wait_loop_witness :
    acquire_deploy_lock env10 props3 3600 600 =
      timeoutTail cp10 props3 (env10.now - 100) [] ∧
    Effect.mkdirAttempt ∉ (acquire_deploy_lock env10 props3 3600 600).2 :=
  C10_skip_wait_loop env10 props3 cp10 (pyS "/lk") (pyS "100") 3600 600 100
    (by decide) (by decide) (by decide) (by decide) (by decide)
